import Mathlib

/-!
Shallow embedding of src/src/VideoPlayer.tsx.

The component keeps a flat set of React state variables (the session state)
and a ref to the native HTMLVideoElement. We model the native element as a
record of the fields the handlers read or write, the ref as an
Option VideoEl (none = no element mounted), and each handler as a pure
function from the old (element, state) to the new one. Numbers are modelled
as rationals.
-/

namespace Vid2Play

/-- The fields of the native HTMLVideoElement that the handlers touch. -/
structure VideoEl where
  paused : Bool
  currentTime : ℚ
  duration : ℚ
  volume : ℚ
  muted : Bool
  playbackRate : ℚ
  deriving Repr, DecidableEq

/-- The React session state of the component (the useState variables, in
source order). -/
structure PlayerState where
  isPlaying : Bool
  currentTime : ℚ
  duration : ℚ
  volume : ℚ
  isMuted : Bool
  isFullscreen : Bool
  darkMode : Bool
  videoFile : Option String
  playbackRate : ℚ
  hue : ℚ
  saturation : ℚ
  brightness : ℚ
  deriving Repr, DecidableEq

/-- The initial session state, from the useState initialisers. -/
def initialState : PlayerState :=
  { isPlaying := false
    currentTime := 0
    duration := 0
    volume := 1
    isMuted := false
    isFullscreen := false
    darkMode := true
    videoFile := none
    playbackRate := 1
    hue := 0
    saturation := 100
    brightness := 100 }

/-- handlePlayPause: guarded on the ref; branches on the native paused flag,
commands play or pause and mirrors isPlaying. -/
def handlePlayPause (video : Option VideoEl) (s : PlayerState) :
    Option VideoEl × PlayerState :=
  match video with
  | none => (none, s)
  | some v =>
    if v.paused then
      (some { v with paused := false }, { s with isPlaying := true })
    else
      (some { v with paused := true }, { s with isPlaying := false })

/-- handleTimeUpdate: mirrors the native position into currentTime when the
element is present. -/
def handleTimeUpdate (video : Option VideoEl) (s : PlayerState) : PlayerState :=
  match video with
  | none => s
  | some v => { s with currentTime := v.currentTime }

/-- handleLoadedMetadata: mirrors the native duration when the element is
present. -/
def handleLoadedMetadata (video : Option VideoEl) (s : PlayerState) : PlayerState :=
  match video with
  | none => s
  | some v => { s with duration := v.duration }

/-- handleSeek: when the element is present, writes the slider value to the
native position and mirrors it into currentTime, with no clamping in the
handler itself. -/
def handleSeek (video : Option VideoEl) (value : ℚ) (s : PlayerState) :
    Option VideoEl × PlayerState :=
  match video with
  | none => (none, s)
  | some v =>
    (some { v with currentTime := value }, { s with currentTime := value })

/-- handleVolume: writes the native volume only when the element is present,
but always mirrors volume and sets isMuted to (vol === 0). -/
def handleVolume (video : Option VideoEl) (value : ℚ) (s : PlayerState) :
    Option VideoEl × PlayerState :=
  (video.map fun v => { v with volume := value },
   { s with volume := value, isMuted := decide (value = 0) })

/-- handleMute: when the element is present, flips the native muted flag and
the mirrored isMuted, both driven by the mirrored value. -/
def handleMute (video : Option VideoEl) (s : PlayerState) :
    Option VideoEl × PlayerState :=
  match video with
  | none => (none, s)
  | some v =>
    (some { v with muted := !s.isMuted }, { s with isMuted := !s.isMuted })

/-- handleFullscreen: guarded on the ref; requests or exits fullscreen (an
effect outside the modelled element fields) and mirrors isFullscreen. -/
def handleFullscreen (video : Option VideoEl) (s : PlayerState) : PlayerState :=
  match video with
  | none => s
  | some _ =>
    if !s.isFullscreen then { s with isFullscreen := true }
    else { s with isFullscreen := false }

/-- Models the browser API URL.createObjectURL: yields a blob URL naming the
file. -/
def createObjectURL (file : String) : String := "blob:" ++ file

/-- handleFileChange: when a file was selected, stores its object URL as the
media source and resets currentTime and isPlaying. The video ref is not
touched. -/
def handleFileChange (file : Option String) (s : PlayerState) : PlayerState :=
  match file with
  | none => s
  | some f =>
    { s with
      videoFile := some (createObjectURL f)
      currentTime := 0
      isPlaying := false }

/-- handleDarkMode: flips the theme flag. -/
def handleDarkMode (s : PlayerState) : PlayerState :=
  { s with darkMode := !s.darkMode }

/-- handleSpeedPercent: guarded on the ref and on a falsy duration
(duration equal to 0). Adds duration * percent / 100 to the native position,
clamps first below at 0 and then above at duration, and writes the result to
both the native position and the mirrored currentTime. -/
def handleSpeedPercent (video : Option VideoEl) (percent : ℚ)
    (s : PlayerState) : Option VideoEl × PlayerState :=
  match video with
  | none => (none, s)
  | some v =>
    if s.duration = 0 then (some v, s)
    else
      let jump := s.duration * (percent / 100)
      let t0 := v.currentTime + jump
      let t1 := if t0 < 0 then 0 else t0
      let t2 := if t1 > s.duration then s.duration else t1
      (some { v with currentTime := t2 }, { s with currentTime := t2 })

/-- handlePlaybackRate: always stores the requested rate in the mirrored
state; writes the native rate only when the element is present. No clamping
in the handler itself. -/
def handlePlaybackRate (video : Option VideoEl) (rate : ℚ) (s : PlayerState) :
    Option VideoEl × PlayerState :=
  (video.map fun v => { v with playbackRate := rate },
   { s with playbackRate := rate })

/-- handleHue: stores the slider value verbatim. -/
def handleHue (value : ℚ) (s : PlayerState) : PlayerState :=
  { s with hue := value }

/-- handleSaturation: stores the slider value verbatim. -/
def handleSaturation (value : ℚ) (s : PlayerState) : PlayerState :=
  { s with saturation := value }

/-- handleBrightness: stores the slider value verbatim. -/
def handleBrightness (value : ℚ) (s : PlayerState) : PlayerState :=
  { s with brightness := value }

/-- JavaScript truncation toward zero, as used by the % operator. -/
def jsTrunc (q : ℚ) : ℤ := if 0 ≤ q then ⌊q⌋ else ⌈q⌉

/-- The JavaScript % operator on numbers: a - b * trunc (a / b). -/
def jsMod (a b : ℚ) : ℚ := a - b * (jsTrunc (a / b) : ℚ)

/-- String.padStart(2, zero): pads on the left with zeros up to length 2. -/
def padStart2 (s : String) : String :=
  if 2 ≤ s.length then s
  else String.mk (List.replicate (2 - s.length) '0') ++ s

/-- formatTime, line for line from the source: minutes are
Math.floor(seconds / 60), seconds are Math.floor(seconds % 60), both
rendered in decimal and padded to two digits, joined by a colon. -/
def formatTime (seconds : ℚ) : String :=
  let m := padStart2 (toString ⌊seconds / 60⌋)
  let s := padStart2 (toString ⌊jsMod seconds 60⌋)
  m ++ ":" ++ s

/-- The spec formula for formatTime: pad2 (floor (s / 60)) ++ colon ++
pad2 (floor (s mod 60)) with the mathematical remainder s - 60 * floor (s / 60).
Stated separately so agreement with the source definition is a theorem. -/
def formatTimeSpec (s : ℚ) : String :=
  padStart2 (toString ⌊s / 60⌋) ++ ":" ++
    padStart2 (toString ⌊s - 60 * (⌊s / 60⌋ : ℚ)⌋)

/-- clamp (x, lo, hi) as in the spec statements: max lo (min x hi). -/
def clamp (x lo hi : ℚ) : ℚ := max lo (min x hi)

/-- A concrete mounted video element used in witnesses and counterexamples. -/
def vid0 : VideoEl :=
  { paused := true
    currentTime := 3
    duration := 10
    volume := 1
    muted := false
    playbackRate := 1 }

/-- A concrete session state with duration 10, used in witnesses and
counterexamples. -/
def st10 : PlayerState := { initialState with duration := 10, currentTime := 3 }

/-- A concrete mounted element positioned at 5 of 60 seconds. -/
def vid60 : VideoEl := { vid0 with currentTime := 5, duration := 60 }

/-- A concrete session state with duration 60 and currentTime 5. -/
def st60 : PlayerState := { initialState with duration := 60, currentTime := 5 }

/-- C1: for percent in [-100,100], percent not 0, and a known non-zero
duration (durations are non-negative seconds, so a known non-zero duration
is positive), handleSpeedPercent sets the mirrored currentTime to
clamp (native position + duration * percent / 100, 0, duration). -/
theorem jumpByPercent_sets_clamped_currentTime (v : VideoEl) (s : PlayerState)
    (percent : ℚ) (h1 : -100 ≤ percent) (h2 : percent ≤ 100)
    (h3 : percent ≠ 0) (h4 : 0 < s.duration) :
    (handleSpeedPercent (some v) percent s).2.currentTime =
      clamp (v.currentTime + s.duration * (percent / 100)) 0 s.duration := by
  have hd : s.duration ≠ 0 := ne_of_gt h4
  simp only [handleSpeedPercent, clamp, if_neg hd]
  split_ifs with ha hb
  · exact absurd hb (by linarith)
  · rw [min_eq_left (by linarith), max_eq_left (by linarith)]
  · rw [min_eq_right (by linarith), max_eq_right (by linarith)]
  · rw [min_eq_left (by linarith), max_eq_right (by linarith)]

/-- Witness for C1: the spec scenario duration 60, currentTime 5,
jumpByPercent (-10). -/
theorem jumpByPercent_clamped_witness :
    (handleSpeedPercent (some vid60) (-10) st60).2.currentTime =
      clamp (vid60.currentTime + st60.duration * ((-10) / 100)) 0 st60.duration :=
  jumpByPercent_sets_clamped_currentTime vid60 st60 (-10) (by norm_num)
    (by norm_num) (by norm_num) (by norm_num [st60, initialState])

/-- C2 counterexample: with a mounted element and duration 10, seeking to 20
stores currentTime 20, which lies outside [0, duration]: handleSeek performs
no clamping. -/
theorem seek_stores_out_of_range_cex :
    (handleSeek (some vid0) 20 st10).2.currentTime = 20 ∧
    ¬ (handleSeek (some vid0) 20 st10).2.currentTime ≤ st10.duration := by
  refine ⟨rfl, ?_⟩
  show ¬ (20:ℚ) ≤ st10.duration
  norm_num [st10, initialState]

/-- C2 (amended): the handlers store seek and rate inputs verbatim, so the
invariant holds exactly when the inputs respect the slider bounds: for v in
[0, duration] the stored currentTime after handleSeek equals v and lies in
[0, duration], and for r in [0.25, 2] the stored playbackRate after
handlePlaybackRate equals r and lies in [0.25, 2]. -/
theorem bounded_seek_and_rate_keep_invariant (vid : VideoEl) (s : PlayerState)
    (v r : ℚ) (hv0 : 0 ≤ v) (hv1 : v ≤ s.duration)
    (hr0 : 1/4 ≤ r) (hr1 : r ≤ 2) :
    ((handleSeek (some vid) v s).2.currentTime = v ∧
      0 ≤ (handleSeek (some vid) v s).2.currentTime ∧
      (handleSeek (some vid) v s).2.currentTime ≤ s.duration) ∧
    ((handlePlaybackRate (some vid) r s).2.playbackRate = r ∧
      1/4 ≤ (handlePlaybackRate (some vid) r s).2.playbackRate ∧
      (handlePlaybackRate (some vid) r s).2.playbackRate ≤ 2) :=
  ⟨⟨rfl, hv0, hv1⟩, ⟨rfl, hr0, hr1⟩⟩

/-- Witness for the amended C2: seek to 4 and rate 1 in the duration-10
state. -/
theorem bounded_seek_and_rate_witness :
    ((handleSeek (some vid0) 4 st10).2.currentTime = 4 ∧
      0 ≤ (handleSeek (some vid0) 4 st10).2.currentTime ∧
      (handleSeek (some vid0) 4 st10).2.currentTime ≤ st10.duration) ∧
    ((handlePlaybackRate (some vid0) 1 st10).2.playbackRate = 1 ∧
      1/4 ≤ (handlePlaybackRate (some vid0) 1 st10).2.playbackRate ∧
      (handlePlaybackRate (some vid0) 1 st10).2.playbackRate ≤ 2) :=
  bounded_seek_and_rate_keep_invariant vid0 st10 4 1 (by norm_num)
    (by norm_num [st10, initialState]) (by norm_num) (by norm_num)

/-- C3 counterexample: requesting rate 3 stores playbackRate 3 verbatim, not
the nearest bound 2. -/
theorem playbackRate_stores_unclamped_cex :
    (handlePlaybackRate (some vid0) 3 initialState).2.playbackRate = 3 ∧
    (handlePlaybackRate (some vid0) 3 initialState).2.playbackRate ≠ 2 := by
  refine ⟨rfl, ?_⟩
  show (3:ℚ) ≠ 2
  norm_num

/-- C3 (amended): handlePlaybackRate stores the requested rate verbatim with
no clamping in the handler; the [0.25, 2] bounds are enforced only by the
slider element that produces the input. -/
theorem playbackRate_stored_verbatim (video : Option VideoEl)
    (s : PlayerState) (r : ℚ) :
    (handlePlaybackRate video r s).2.playbackRate = r := rfl

/-- C4: for v in [0,1], handleVolume mirrors volume = v and sets isMuted
true exactly when v = 0. -/
theorem volume_mirrored_and_muted_iff_zero (video : Option VideoEl)
    (s : PlayerState) (v : ℚ) (h0 : 0 ≤ v) (h1 : v ≤ 1) :
    (handleVolume video v s).2.volume = v ∧
    ((handleVolume video v s).2.isMuted = true ↔ v = 0) := by
  refine ⟨rfl, ?_⟩
  simp [handleVolume]

/-- Witness for C4: setting volume 0 mirrors volume 0 and mutes. -/
theorem volume_mirrored_witness :
    (handleVolume (some vid0) 0 initialState).2.volume = 0 ∧
    ((handleVolume (some vid0) 0 initialState).2.isMuted = true ↔ (0:ℚ) = 0) :=
  volume_mirrored_and_muted_iff_zero (some vid0) initialState 0 (le_refl 0)
    (by norm_num)

/-- C5 counterexample: with no video element mounted, handleVolume still
changes the stored volume from 1 to 1/2, so it is not a complete no-op. -/
theorem volume_changes_state_without_video_cex :
    (handleVolume none (1/2) initialState).2.volume = 1/2 ∧
    initialState.volume = 1 ∧ ((1:ℚ)/2 ≠ 1) :=
  ⟨rfl, rfl, by norm_num⟩

/-- C5 (amended): handlePlayPause, handleMute, handleFullscreen, handleSeek
and handleSpeedPercent are complete no-ops on the session state when no
element is present, but handleVolume and handlePlaybackRate still update the
mirrored volume, isMuted and playbackRate; only the native command is
guarded there. -/
theorem absent_video_guard_behavior (s : PlayerState) (v p r w : ℚ) :
    (handlePlayPause none s).2 = s ∧
    (handleMute none s).2 = s ∧
    handleFullscreen none s = s ∧
    (handleSeek none v s).2 = s ∧
    (handleSpeedPercent none p s).2 = s ∧
    (handleVolume none w s).2.volume = w ∧
    (handleVolume none w s).2.isMuted = decide (w = 0) ∧
    (handlePlaybackRate none r s).2.playbackRate = r :=
  ⟨rfl, rfl, rfl, rfl, rfl, rfl, rfl, rfl⟩

/-- C6: with an element present, toggling mute twice restores the original
isMuted, and neither call changes the stored volume. -/
theorem toggleMute_twice_restores (v : VideoEl) (s : PlayerState) :
    (handleMute (handleMute (some v) s).1 (handleMute (some v) s).2).2.isMuted
        = s.isMuted ∧
    (handleMute (some v) s).2.volume = s.volume ∧
    (handleMute (handleMute (some v) s).1 (handleMute (some v) s).2).2.volume
        = s.volume := by
  simp [handleMute]

/-- C7: loading a file replaces the media source with its object URL and
resets currentTime to 0 and isPlaying to false, whatever the prior state. -/
theorem loadMedia_resets (s : PlayerState) (f : String) :
    (handleFileChange (some f) s).videoFile = some (createObjectURL f) ∧
    (handleFileChange (some f) s).currentTime = 0 ∧
    (handleFileChange (some f) s).isPlaying = false :=
  ⟨rfl, rfl, rfl⟩

/-- C8 counterexample: handleHue stores 250 verbatim, outside the declared
range [-180, 180]: no clamping or rejection happens in the handler. -/
theorem hue_stored_unclamped_cex :
    (handleHue 250 initialState).hue = 250 ∧
    ¬ (handleHue 250 initialState).hue ≤ 180 := by
  refine ⟨rfl, ?_⟩
  show ¬ (250:ℚ) ≤ 180
  norm_num

/-- C8 (amended): the filter handlers store their input verbatim with no
clamping, so the stored hue, saturation and brightness lie in the declared
ranges exactly when the inputs do, as the range sliders guarantee. -/
theorem filters_store_slider_value (s : PlayerState) (x y z : ℚ)
    (hx1 : -180 ≤ x) (hx2 : x ≤ 180) (hy1 : 0 ≤ y) (hy2 : y ≤ 200)
    (hz1 : 50 ≤ z) (hz2 : z ≤ 200) :
    ((handleHue x s).hue = x ∧ -180 ≤ (handleHue x s).hue ∧
      (handleHue x s).hue ≤ 180) ∧
    ((handleSaturation y s).saturation = y ∧
      0 ≤ (handleSaturation y s).saturation ∧
      (handleSaturation y s).saturation ≤ 200) ∧
    ((handleBrightness z s).brightness = z ∧
      50 ≤ (handleBrightness z s).brightness ∧
      (handleBrightness z s).brightness ≤ 200) :=
  ⟨⟨rfl, hx1, hx2⟩, ⟨rfl, hy1, hy2⟩, ⟨rfl, hz1, hz2⟩⟩

/-- Witness for the amended C8: the default slider values 0, 100, 100. -/
theorem filters_store_witness :
    ((handleHue 0 initialState).hue = 0 ∧ -180 ≤ (handleHue 0 initialState).hue ∧
      (handleHue 0 initialState).hue ≤ 180) ∧
    ((handleSaturation 100 initialState).saturation = 100 ∧
      0 ≤ (handleSaturation 100 initialState).saturation ∧
      (handleSaturation 100 initialState).saturation ≤ 200) ∧
    ((handleBrightness 100 initialState).brightness = 100 ∧
      50 ≤ (handleBrightness 100 initialState).brightness ∧
      (handleBrightness 100 initialState).brightness ≤ 200) :=
  filters_store_slider_value initialState 0 100 100 (by norm_num) (by norm_num)
    (by norm_num) (by norm_num) (by norm_num) (by norm_num)

/-- C9: formatTime renders the two spec scenarios and, for every
non-negative input, agrees with the spec formula
pad2 (floor (s / 60)) ++ ":" ++ pad2 (floor (s mod 60)). -/
theorem formatTime_matches_spec :
    formatTime 125 = "02:05" ∧ formatTime 5 = "00:05" ∧
    ∀ s : ℚ, 0 ≤ s → formatTime s = formatTimeSpec s := by
  refine ⟨?_, ?_, ?_⟩
  · have h1 : ⌊(125:ℚ) / 60⌋ = 2 := by norm_num
    have h2 : ⌊jsMod 125 60⌋ = 5 := by norm_num [jsMod, jsTrunc]
    simp only [formatTime, h1, h2]
    rfl
  · have h1 : ⌊(5:ℚ) / 60⌋ = 0 := by norm_num
    have h2 : ⌊jsMod 5 60⌋ = 5 := by norm_num [jsMod, jsTrunc]
    simp only [formatTime, h1, h2]
    rfl
  · intro s hs
    have h60 : (0:ℚ) ≤ s / 60 := by positivity
    simp only [formatTime, formatTimeSpec, jsMod, jsTrunc, if_pos h60]

/-- Witness for C9: the general formula at the concrete input 61. -/
theorem formatTime_spec_witness : formatTime 61 = formatTimeSpec 61 :=
  formatTime_matches_spec.2.2 61 (by norm_num)

/-- C10: handleFileChange changes only mediaSource, currentTime and
isPlaying: duration, volume, isMuted, playbackRate, hue, saturation,
brightness, darkMode and isFullscreen are unchanged, and the duration is
only overwritten later when handleLoadedMetadata fires for the new media. -/
theorem loadMedia_frame_effect (s : PlayerState) (f : String) (v : VideoEl) :
    (handleFileChange (some f) s).duration = s.duration ∧
    (handleFileChange (some f) s).volume = s.volume ∧
    (handleFileChange (some f) s).isMuted = s.isMuted ∧
    (handleFileChange (some f) s).playbackRate = s.playbackRate ∧
    (handleFileChange (some f) s).hue = s.hue ∧
    (handleFileChange (some f) s).saturation = s.saturation ∧
    (handleFileChange (some f) s).brightness = s.brightness ∧
    (handleFileChange (some f) s).darkMode = s.darkMode ∧
    (handleFileChange (some f) s).isFullscreen = s.isFullscreen ∧
    (handleLoadedMetadata (some v) (handleFileChange (some f) s)).duration
        = v.duration :=
  ⟨rfl, rfl, rfl, rfl, rfl, rfl, rfl, rfl, rfl, rfl⟩

end Vid2Play
